import Mathlib

/-!
Verification of the schema-aware message decoding pipeline of
`cloudformation/lambda/index.py` (functions `get_avro_schema`,
`get_schema_by_name`, `decode_avro_payload`, `deserialize_message`).

Shallow embedding conventions:
* Python byte strings are `List Nat` (each element a byte value 0..255).
* Python values (the results of `json.loads`, `fastavro.schemaless_reader`,
  and the dictionaries built by the pipeline) are the inductive `PyVal`.
* External libraries (glue client, `json.loads`, `fastavro`, `zlib`,
  `bytes.decode`) are oracles collected in an `Env` record.  An oracle
  returns `Except String _` (or `Option _`) when the Python call can raise;
  for `bytes.decode("utf-8")` / `json.loads` the only exceptions raised at
  this abstraction level are `UnicodeDecodeError` / `JSONDecodeError`, which
  the source catches, so these oracles are `Option`-valued.
* The module-level mutable `_schema_cache` dict is threaded explicitly as
  part of a `St` state record.  `St` also carries an instrumentation trace
  of resolver-entry, remote-registry-call, JSON-strategy and Avro-decode
  events, so that claims about "number of remote calls" and "strategy not
  attempted" are statable.
* `base64.b64encode(..).decode("utf-8")` and `str(uuid.UUID(bytes=..))`
  are deterministic pure functions and are implemented concretely.
* The embedded functions return `Except String PyVal` (or a product with
  the state): a `.error` result models an uncaught Python exception
  propagating to the caller of the embedded function.
-/

inductive PyVal where
  | nil
  | pybool (b : Bool)
  | pyint (n : Int)
  | pystr (s : String)
  | pylist (xs : List PyVal)
  | pydict (kvs : List (String × PyVal))

/-- Association-list lookup with String keys, first match wins (models the
    lookup in a Python dict given the way this embedding records updates by
    prepending). -/
def lookupStr {α : Type} (k : String) : List (String × α) → Option α
  | [] => Option.none
  | (k2, v) :: rest => if k = k2 then some v else lookupStr k rest

/-- isinstance(v, dict) -/
def PyVal.isDict : PyVal → Bool
  | .pydict _ => true
  | _ => false

/-- For a dict, whether the key is present (Python `k in d`); false for
    non-dict values. -/
def PyVal.hasKeyB : PyVal → String → Bool
  | .pydict kvs, k => (lookupStr k kvs).isSome
  | _, _ => false

/-- One base64 alphabet character for a 6-bit group. -/
def b64Char (n : Nat) : Char :=
  if n < 26 then Char.ofNat (65 + n)
  else if n < 52 then Char.ofNat (97 + (n - 26))
  else if n < 62 then Char.ofNat (48 + (n - 52))
  else if n = 62 then '+' else '/'

/-- Standard base64 of a byte list, as the character list.  Three input
    bytes become four alphabet characters; a final group of one or two
    bytes is padded with `=`. -/
def b64Chars : List Nat → List Char
  | a :: b :: c :: rest =>
      b64Char (a / 4) :: b64Char ((a % 4) * 16 + b / 16) ::
      b64Char ((b % 16) * 4 + c / 64) :: b64Char (c % 64) :: b64Chars rest
  | [a, b] =>
      [b64Char (a / 4), b64Char ((a % 4) * 16 + b / 16), b64Char ((b % 16) * 4), '=']
  | [a] =>
      [b64Char (a / 4), b64Char ((a % 4) * 16), '=', '=']
  | [] => []

/-- Python `base64.b64encode(bs).decode("utf-8")`. -/
def b64encode (bs : List Nat) : String := String.mk (b64Chars bs)

/-- Lowercase hex digit. -/
def hexDigit (n : Nat) : Char :=
  if n < 10 then Char.ofNat (48 + n) else Char.ofNat (87 + n)

/-- Two lowercase hex digits of a byte. -/
def byteHex (b : Nat) : String :=
  String.mk [hexDigit (b / 16 % 16), hexDigit (b % 16)]

/-- Python `str(uuid.UUID(bytes=bytes(bs)))` for a 16-byte list: the 32
    lowercase hex digits in big-endian byte order, grouped 8-4-4-4-12.
    (With exactly 16 bytes the Python constructor never raises.) -/
def uuidStr (bs : List Nat) : String :=
  let hx := bs.map byteHex
  String.join (hx.take 4) ++ "-" ++ String.join ((hx.drop 4).take 2) ++ "-" ++
  String.join ((hx.drop 6).take 2) ++ "-" ++ String.join ((hx.drop 8).take 2) ++ "-" ++
  String.join (hx.drop 10)

/-- Instrumentation events: entering a resolver function, performing a
    remote Glue registry call, attempting the JSON strategy, and calling
    the Avro binary decoder. -/
inductive TraceEvent where
  | resolveById (sid : String)
  | resolveByName (sname : String)
  | remoteById (sid : String)
  | remoteByName (sname : String)
  | jsonAttempt
  | avroDecode
deriving DecidableEq, Repr

def isRemoteEvent : TraceEvent → Bool
  | .remoteById _ => true
  | .remoteByName _ => true
  | _ => false

def isResolveEvent : TraceEvent → Bool
  | .resolveById _ => true
  | .resolveByName _ => true
  | _ => false

def isJsonAttempt : TraceEvent → Bool
  | .jsonAttempt => true
  | _ => false

def isAvroDecode : TraceEvent → Bool
  | .avroDecode => true
  | _ => false

/-- Number of events in the trace satisfying `p`. -/
def countEv (p : TraceEvent → Bool) (tr : List TraceEvent) : Nat :=
  (tr.filter p).length

/-- Threaded state: the module-level `_schema_cache` plus the
    instrumentation trace (most recent event first). -/
structure St where
  cache : List (String × PyVal)
  trace : List TraceEvent

def St.log (st : St) (e : TraceEvent) : St :=
  { st with trace := e :: st.trace }

def st0 : St := ⟨[], []⟩

/-- External-world oracles and module-level configuration flags. -/
structure Env where
  /-- whether `import fastavro` succeeded (FASTAVRO_AVAILABLE) -/
  fastavroAvailable : Bool
  /-- whether `glue_client` is truthy (boto3 imported and client built) -/
  glueAvailable : Bool
  /-- GLUE_REGISTRY_NAME environment variable (`Option.none` = unset/falsy) -/
  glueRegistryName : Option String
  /-- `glue_client.get_schema_version(SchemaVersionId=sid)["SchemaDefinition"]`;
      `.error` = the remote call (or the key access) raised -/
  getSchemaVersionById : String → Except String String
  /-- `glue_client.get_schema_version(SchemaId={RegistryName, SchemaName},
      SchemaVersionNumber={LatestVersion: True})["SchemaDefinition"]` -/
  getSchemaVersionByName : String → Except String String
  /-- `json.loads`; `Option.none` = `json.JSONDecodeError` raised -/
  jsonLoads : String → Option PyVal
  /-- `fastavro.parse_schema`; `.error` = the call raised -/
  parseSchema : PyVal → Except String PyVal
  /-- `fastavro.schemaless_reader(io.BytesIO(bytes), schema)`;
      `.error` = the call raised -/
  schemalessReader : List Nat → PyVal → Except String PyVal
  /-- `zlib.decompress`; `.error` = `zlib.error` raised -/
  zlibDecompress : List Nat → Except String (List Nat)
  /-- `bytes.decode("utf-8")`; `Option.none` = `UnicodeDecodeError` raised -/
  utf8Decode : List Nat → Option String

/-- The shared tail of both resolvers: take the remote response, run
    `json.loads` on its SchemaDefinition, then `fastavro.parse_schema` when
    fastavro is available (otherwise the schema definition itself is used).
    `Option.none` = some step raised (the source catches it and returns
    None without caching). -/
def fetchParse (env : Env) (remote : Except String String) : Option PyVal :=
  match remote with
  | .error _ => Option.none
  | .ok s =>
    match env.jsonLoads s with
    | Option.none => Option.none
    | some schema_def =>
      match (if env.fastavroAvailable then env.parseSchema schema_def else .ok schema_def) with
      | .error _ => Option.none
      | .ok parsed => some parsed

/-- index.py lines 58-80: fetch and cache an Avro schema from the Glue
    Schema Registry by schema version id.  Total (the source wraps the
    remote call, json parse, schema parse and cache insert in a
    try/except returning None). -/
def get_avro_schema (env : Env) (st : St) (schema_version_id : String) :
    Option PyVal × St :=
  let st1 := st.log (.resolveById schema_version_id)
  match lookupStr schema_version_id st1.cache with
  | some s => (some s, st1)
  | Option.none =>
    if env.glueAvailable then
      let st2 := st1.log (.remoteById schema_version_id)
      match fetchParse env (env.getSchemaVersionById schema_version_id) with
      | Option.none => (Option.none, st2)
      | some parsed =>
        (some parsed, { st2 with cache := (schema_version_id, parsed) :: st2.cache })
    else (Option.none, st1)

/-- index.py lines 83-110: fetch and cache an Avro schema by schema name
    (latest version), cache key namespaced with a leading "name:". -/
def get_schema_by_name (env : Env) (st : St) (schema_name : String) :
    Option PyVal × St :=
  let cache_key := "name:" ++ schema_name
  let st1 := st.log (.resolveByName schema_name)
  match lookupStr cache_key st1.cache with
  | some s => (some s, st1)
  | Option.none =>
    if env.glueAvailable && env.glueRegistryName.isSome then
      let st2 := st1.log (.remoteByName schema_name)
      match fetchParse env (env.getSchemaVersionByName schema_name) with
      | Option.none => (Option.none, st2)
      | some parsed =>
        (some parsed, { st2 with cache := (cache_key, parsed) :: st2.cache })
    else (Option.none, st1)

/-- index.py lines 113-126: decode Avro binary data with the given schema.
    Total: every exception from the reader is caught and turned into a
    fallback dict carrying raw_bytes and decode_error. -/
def decode_avro_payload (env : Env) (st : St) (avro_bytes : List Nat)
    (schema : PyVal) : PyVal × St :=
  let st1 := st.log .avroDecode
  if env.fastavroAvailable then
    match env.schemalessReader avro_bytes schema with
    | .ok record => (record, st1)
    | .error e =>
      (.pydict [("raw_bytes", .pystr (b64encode avro_bytes)),
                ("decode_error", .pystr e)], st1)
  else
    (.pydict [("raw_bytes", .pystr (b64encode avro_bytes)),
              ("decode_error", .pystr "fastavro not available")], st1)

/-- index.py lines 143-148: the static topic-name to schema-name table. -/
def TOPIC_SCHEMA_MAP : List (String × String) :=
  [("taxi-trips", "taxi-trip-schema"),
   ("taxi-rides", "taxi-trip-schema"),
   ("taxi-trip-schema", "taxi-trip-schema"),
   ("taxi-locations", "taxi-locations")]

/-- index.py lines 163-166: the payload after the 18-byte envelope is
    zlib-decompressed when the compression byte is 0x05 and passed through
    unchanged otherwise.  `.error` = `zlib.decompress` raised. -/
def envelopePayload (env : Env) (compression : Nat) (avro_payload : List Nat) :
    Except String (List Nat) :=
  if compression = 5 then env.zlibDecompress avro_payload else .ok avro_payload

/-- index.py lines 168-175: with the (possibly decompressed) payload in
    hand, resolve the schema by version id and either Avro-decode the
    payload or return the raw_bytes/schema_version_id fallback.  Total:
    no exception can be raised from this part of the try block. -/
def envelopeAfterPayload (env : Env) (st : St) (schema_version_id : String)
    (avro_payload : List Nat) : PyVal × St :=
  match get_avro_schema env st schema_version_id with
  | (some schema, st1) => decode_avro_payload env st1 avro_payload schema
  | (Option.none, st1) =>
    (.pydict [("raw_bytes", .pystr (b64encode avro_payload)),
              ("schema_version_id", .pystr schema_version_id)], st1)

/-- index.py lines 152-175: the body of the try block of the
    registry-envelope path.  A `.error` result models an exception inside
    the try block (only `zlib.decompress` can raise here: with more than 18
    input bytes the UUID slice has exactly 16 bytes, so `uuid.UUID(bytes=..)`
    never raises, and the resolver and decoder are total). -/
def envelopeTry (env : Env) (st : St) (raw_bytes : List Nat) :
    Except String PyVal × St :=
  match envelopePayload env (raw_bytes.getD 1 0) (raw_bytes.drop 18) with
  | .error e => (.error e, st)
  | .ok avro_payload =>
    let r := envelopeAfterPayload env st (uuidStr ((raw_bytes.drop 2).take 16))
               avro_payload
    (.ok r.1, r.2)

/-- index.py lines 180-184: the plain-text/JSON strategy as a pure value:
    utf-8 decode then `json.loads`; `Option.none` means one of the two
    raised (UnicodeDecodeError / JSONDecodeError), which the source
    catches and passes. -/
def jsonStrategyResult (env : Env) (raw_bytes : List Nat) : Option PyVal :=
  match env.utf8Decode raw_bytes with
  | Option.none => Option.none
  | some s => env.jsonLoads s

/-- index.py lines 186-197: the topic-convention raw-Avro strategy.
    `.ok (some v)` = strategy succeeded with `v`; `.ok Option.none` =
    strategy declined (fall through to the terminal fallback); `.error` =
    an uncaught exception: when the decoded value is not a dict, the
    logging line `decoded.get('decode_error', ...)` raises AttributeError,
    which nothing in `deserialize_message` catches. -/
def topicStrategy (env : Env) (st : St) (raw_bytes : List Nat) (topic : String) :
    Except String (Option PyVal) × St :=
  match lookupStr topic TOPIC_SCHEMA_MAP with
  | Option.none => (.ok Option.none, st)
  | some schema_name =>
    if env.fastavroAvailable then
      match get_schema_by_name env st schema_name with
      | (Option.none, st1) => (.ok Option.none, st1)
      | (some schema, st1) =>
        let r := decode_avro_payload env st1 raw_bytes schema
        match r.1 with
        | .pydict kvs =>
          if (lookupStr "decode_error" kvs).isSome then (.ok Option.none, r.2)
          else (.ok (some (.pydict kvs)), r.2)
        | _ => (.error "AttributeError: object has no attribute get", r.2)
    else (.ok Option.none, st)

/-- index.py lines 180-200: strategies 2-4, reached only when no envelope
    was detected: JSON first, then topic-convention Avro, then the terminal
    raw_bytes fallback. -/
def noEnvelopePath (env : Env) (st : St) (raw_bytes : List Nat) (topic : String) :
    Except String PyVal × St :=
  let st1 := st.log .jsonAttempt
  match jsonStrategyResult env raw_bytes with
  | some v => (.ok v, st1)
  | Option.none =>
    match topicStrategy env st1 raw_bytes topic with
    | (.ok (some v), st2) => (.ok v, st2)
    | (.ok Option.none, st2) =>
      (.ok (.pydict [("raw_bytes", .pystr (b64encode raw_bytes))]), st2)
    | (.error e, st2) => (.error e, st2)

/-- index.py lines 129-200: the full decode pipeline.  A `.error` result
    models an exception escaping `deserialize_message` to its caller. -/
def deserialize_message (env : Env) (st : St) (raw_bytes : List Nat)
    (topic : String) : Except String PyVal × St :=
  if 18 < raw_bytes.length ∧ raw_bytes.getD 0 0 = 3 then
    match envelopeTry env st raw_bytes with
    | (.ok v, st1) => (.ok v, st1)
    | (.error e, st1) =>
      (.ok (.pydict [("raw_bytes", .pystr (b64encode raw_bytes)),
                     ("error", .pystr e)]), st1)
  else
    noEnvelopePath env st raw_bytes topic

/-! ### Concrete environments and inputs used by counterexamples and witnesses -/

/-- A concrete instantiation of the oracles: fastavro and boto3 imported,
    registry name configured, every remote call / decode / decompress /
    utf-8 decode failing (the failure modes each match a real Python
    exception of the caught kind). -/
def envDefault : Env := {
  fastavroAvailable := true
  glueAvailable := true
  glueRegistryName := some "taxi-registry"
  getSchemaVersionById := fun _ => .error "EndpointConnectionError"
  getSchemaVersionByName := fun _ => .error "EndpointConnectionError"
  jsonLoads := fun _ => Option.none
  parseSchema := fun d => .ok d
  schemalessReader := fun _ _ => .error "cannot read header"
  zlibDecompress := fun _ => .error "zlib error"
  utf8Decode := fun _ => Option.none }

/-- Oracles at the input `b"null"`: `b"null".decode("utf-8") = "null"` and
    `json.loads("null")` returns Python None. -/
def envJsonNull : Env := { envDefault with
  utf8Decode := fun b => if b = [110, 117, 108, 108] then some "null" else Option.none
  jsonLoads := fun s => if s = "null" then some PyVal.nil else Option.none }

/-- Oracles for a registry whose latest "taxi-trip-schema" is the primitive
    Avro schema `"string"`: `json.loads("\"string\"")` is the Python str
    `string`, `fastavro.parse_schema` accepts it, and
    `fastavro.schemaless_reader` then returns a str, not a dict. -/
def envStrSchema : Env := { envDefault with
  getSchemaVersionByName := fun _ => .ok "\"string\""
  jsonLoads := fun s => if s = "\"string\"" then some (.pystr "string") else Option.none
  schemalessReader := fun _ _ => .ok (.pystr "hello") }

/-- `zlib.compress(b"A")` (9 bytes); `zlib.decompress` maps it back to
    `b"A" = [65]`. -/
def zA : List Nat := [120, 156, 115, 4, 0, 0, 66, 0, 66]

/-- Oracles where `zlib.decompress` behaves as real zlib does on `zA`. -/
def envZlib : Env := { envDefault with
  zlibDecompress := fun q => if q = zA then .ok [65] else .error "zlib error" }

/-- Envelope input: version 0x03, compression 0x05, all-zero schema UUID,
    payload `zlib.compress(b"A")`. -/
def bCompressed : List Nat := [3, 5] ++ List.replicate 16 0 ++ zA

/-- Envelope input: version 0x03, compression 0x05, all-zero schema UUID,
    payload `[9]` (not valid zlib data, so decompression raises). -/
def bBadZlib : List Nat := [3, 5] ++ List.replicate 16 0 ++ [9]

/-- Envelope input: version 0x03, compression 0x00, all-zero schema UUID,
    payload `[7]`. -/
def bPlainEnvelope : List Nat := [3, 0] ++ List.replicate 16 0 ++ [7]

/-- Oracles for a registry that returns the schema definition text "42" for
    every schema version id; `json.loads("42")` is the Python int 42. -/
def envOkById : Env := { envDefault with
  getSchemaVersionById := fun _ => .ok "42"
  jsonLoads := fun s => if s = "42" then some (.pyint 42) else Option.none }

/-- The bytes of `b"~AE~"`-free JSON input `[123,34,97,34,58,49,125]`,
    i.e. the seven bytes of the JSON object text with single key "a" and
    value 1, with its utf-8 decode and `json.loads` results. -/
def envJsonObj : Env := { envDefault with
  utf8Decode := fun b =>
    if b = [123, 34, 97, 34, 58, 49, 125] then some "\x7b\"a\":1\x7d" else Option.none
  jsonLoads := fun s =>
    if s = "\x7b\"a\":1\x7d" then some (.pydict [("a", .pyint 1)]) else Option.none }

/-! ### Shape of every value the pipeline can return -/

/-- The three sources of a normally-returned Decoded Record: the parsed
    JSON value, a successful Avro decode, or a fallback dict carrying
    `raw_bytes`. -/
def decodeOutcome (env : Env) (v : PyVal) : Prop :=
  (∃ s, env.jsonLoads s = some v) ∨
  (∃ p sch, env.schemalessReader p sch = .ok v) ∨
  (v.isDict = true ∧ v.hasKeyB "raw_bytes" = true)

/-! ### Claim theorems -/

/-- C3: for every byte sequence of length at most 18, or whose first byte
    is not 0x03, `deserialize_message` does not enter the registry-envelope
    path and proceeds directly to the plain-text/JSON strategy (the
    strategies-2-to-4 chain `noEnvelopePath`, which begins with the JSON
    attempt). -/
theorem C3_no_envelope_goes_to_plain_strategies (env : Env) (st : St)
    (raw_bytes : List Nat) (topic : String)
    (h : raw_bytes.length ≤ 18 ∨ raw_bytes.getD 0 0 ≠ 3) :
    deserialize_message env st raw_bytes topic = noEnvelopePath env st raw_bytes topic := by
  unfold deserialize_message
  rw [if_neg]
  rintro ⟨h1, h2⟩
  rcases h with h | h
  · exact absurd h1 (Nat.not_lt.mpr h)
  · exact h h2

theorem C3_no_envelope_goes_to_plain_strategies_witness :
    ([1, 2] : List Nat).length ≤ 18 ∧
    deserialize_message envDefault st0 [1, 2] "t" = noEnvelopePath envDefault st0 [1, 2] "t" :=
  ⟨by decide,
   C3_no_envelope_goes_to_plain_strategies envDefault st0 [1, 2] "t" (Or.inl (by decide))⟩

/-- C4: for every byte sequence that enters the registry-envelope path
    (length > 18 and first byte 0x03), if an exception occurs inside that
    path (in this embedding the only exception source inside the try block
    is `zlib.decompress`, surfaced through `envelopePayload`), then
    `deserialize_message` returns the fallback dict with the base64 of the
    whole original input under raw_bytes and the message under error, with
    the state returned unchanged — in particular no JSON-strategy, resolver
    or decode event is logged, so the later strategies are not attempted. -/
theorem C4_envelope_exception_fallback_stops (env : Env) (st : St)
    (raw_bytes : List Nat) (topic : String) (e : String)
    (hlen : 18 < raw_bytes.length) (hb : raw_bytes.getD 0 0 = 3)
    (hexn : envelopePayload env (raw_bytes.getD 1 0) (raw_bytes.drop 18) = .error e) :
    deserialize_message env st raw_bytes topic =
      (.ok (.pydict [("raw_bytes", .pystr (b64encode raw_bytes)),
                     ("error", .pystr e)]), st) := by
  have hcond : 18 < raw_bytes.length ∧ raw_bytes.getD 0 0 = 3 := ⟨hlen, hb⟩
  simp only [deserialize_message, if_pos hcond, envelopeTry, hexn]

theorem C4_envelope_exception_fallback_stops_witness :
    18 < bBadZlib.length ∧ bBadZlib.getD 0 0 = 3 ∧
    envelopePayload envDefault (bBadZlib.getD 1 0) (bBadZlib.drop 18) = .error "zlib error" ∧
    deserialize_message envDefault st0 bBadZlib "t" =
      (.ok (.pydict [("raw_bytes", .pystr (b64encode bBadZlib)),
                     ("error", .pystr "zlib error")]), st0) :=
  ⟨by decide, by decide, rfl,
   C4_envelope_exception_fallback_stops envDefault st0 bBadZlib "t" "zlib error"
     (by decide) (by decide) rfl⟩

/-- C8: for every byte sequence with no envelope whose JSON strategy fails
    (not valid UTF-8, or not valid JSON), when the topic has no entry in
    TOPIC_SCHEMA_MAP, `deserialize_message` returns the dict whose only key
    is raw_bytes, holding the base64 of the full original input bytes. -/
theorem C8_unmapped_topic_terminal_fallback (env : Env) (st : St)
    (raw_bytes : List Nat) (topic : String)
    (hnoenv : ¬(18 < raw_bytes.length ∧ raw_bytes.getD 0 0 = 3))
    (hjson : jsonStrategyResult env raw_bytes = Option.none)
    (hmap : lookupStr topic TOPIC_SCHEMA_MAP = Option.none) :
    (deserialize_message env st raw_bytes topic).1 =
      .ok (.pydict [("raw_bytes", .pystr (b64encode raw_bytes))]) := by
  simp only [deserialize_message, if_neg hnoenv, noEnvelopePath, hjson, topicStrategy, hmap]

theorem C8_unmapped_topic_terminal_fallback_witness :
    jsonStrategyResult envDefault [0] = Option.none ∧
    lookupStr "t" TOPIC_SCHEMA_MAP = Option.none ∧
    (deserialize_message envDefault st0 [0] "t").1 =
      .ok (.pydict [("raw_bytes", .pystr (b64encode [0]))]) :=
  ⟨rfl, rfl,
   C8_unmapped_topic_terminal_fallback envDefault st0 [0] "t" (by decide) rfl rfl⟩

/-- C9: for every input byte sequence with no envelope whose bytes decode
    as UTF-8 text parsing as JSON, `deserialize_message` returns the parsed
    structure directly, and the only state change is the json-attempt trace
    entry: no schema-resolver entry (by id or by name) and no remote
    registry call happens on that path. -/
theorem C9_json_path_no_resolver (env : Env) (st : St)
    (raw_bytes : List Nat) (topic : String) (v : PyVal)
    (hnoenv : ¬(18 < raw_bytes.length ∧ raw_bytes.getD 0 0 = 3))
    (hjson : jsonStrategyResult env raw_bytes = some v) :
    deserialize_message env st raw_bytes topic = (.ok v, st.log .jsonAttempt) ∧
    countEv isResolveEvent (st.log .jsonAttempt).trace = countEv isResolveEvent st.trace ∧
    countEv isRemoteEvent (st.log .jsonAttempt).trace = countEv isRemoteEvent st.trace := by
  refine ⟨?_, ?_, ?_⟩
  · simp only [deserialize_message, if_neg hnoenv, noEnvelopePath, hjson]
  · simp [St.log, countEv, List.filter_cons, isResolveEvent]
  · simp [St.log, countEv, List.filter_cons, isRemoteEvent]

theorem C9_json_path_no_resolver_witness :
    jsonStrategyResult envJsonObj [123, 34, 97, 34, 58, 49, 125] =
      some (.pydict [("a", .pyint 1)]) ∧
    (deserialize_message envJsonObj st0 [123, 34, 97, 34, 58, 49, 125] "taxi-trips" =
      (.ok (.pydict [("a", .pyint 1)]), st0.log .jsonAttempt) ∧
    countEv isResolveEvent (st0.log .jsonAttempt).trace = countEv isResolveEvent st0.trace ∧
    countEv isRemoteEvent (st0.log .jsonAttempt).trace = countEv isRemoteEvent st0.trace) :=
  ⟨rfl,
   C9_json_path_no_resolver envJsonObj st0 [123, 34, 97, 34, 58, 49, 125] "taxi-trips"
     (.pydict [("a", .pyint 1)]) (by decide) rfl⟩

/-- C10: for every payload entering the registry-envelope path, if the
    compression byte is any value other than 0x05 then the post-envelope
    payload bytes are passed unchanged (identity) into schema resolution
    and binary decoding (`envelopeAfterPayload`); and compression code 0x05
    is exactly the one that invokes `zlib.decompress`. -/
theorem C10_only_zlib_code_decompresses (env : Env) (st : St)
    (raw_bytes : List Nat) (topic : String)
    (hlen : 18 < raw_bytes.length) (hb : raw_bytes.getD 0 0 = 3)
    (hc : raw_bytes.getD 1 0 ≠ 5) :
    envelopePayload env (raw_bytes.getD 1 0) (raw_bytes.drop 18) = .ok (raw_bytes.drop 18) ∧
    deserialize_message env st raw_bytes topic =
      (.ok (envelopeAfterPayload env st (uuidStr ((raw_bytes.drop 2).take 16))
              (raw_bytes.drop 18)).1,
       (envelopeAfterPayload env st (uuidStr ((raw_bytes.drop 2).take 16))
              (raw_bytes.drop 18)).2) ∧
    (∀ q, envelopePayload env 5 q = env.zlibDecompress q) := by
  have hcond : 18 < raw_bytes.length ∧ raw_bytes.getD 0 0 = 3 := ⟨hlen, hb⟩
  have hp : envelopePayload env (raw_bytes.getD 1 0) (raw_bytes.drop 18) =
      .ok (raw_bytes.drop 18) := by
    unfold envelopePayload
    rw [if_neg hc]
  refine ⟨hp, ?_, fun q => by unfold envelopePayload; rw [if_pos rfl]⟩
  simp only [deserialize_message, if_pos hcond, envelopeTry, hp]

theorem C10_only_zlib_code_decompresses_witness :
    18 < bPlainEnvelope.length ∧ bPlainEnvelope.getD 1 0 ≠ 5 ∧
    (envelopePayload envDefault (bPlainEnvelope.getD 1 0) (bPlainEnvelope.drop 18) =
      .ok (bPlainEnvelope.drop 18) ∧
    deserialize_message envDefault st0 bPlainEnvelope "t" =
      (.ok (envelopeAfterPayload envDefault st0 (uuidStr ((bPlainEnvelope.drop 2).take 16))
              (bPlainEnvelope.drop 18)).1,
       (envelopeAfterPayload envDefault st0 (uuidStr ((bPlainEnvelope.drop 2).take 16))
              (bPlainEnvelope.drop 18)).2) ∧
    (∀ q, envelopePayload envDefault 5 q = envDefault.zlibDecompress q)) :=
  ⟨by decide, by decide,
   C10_only_zlib_code_decompresses envDefault st0 bPlainEnvelope "t"
     (by decide) (by decide) (by decide)⟩

/-- Helper: `get_avro_schema` only appends resolver-entry and remote-call
    events for its own schema id to the trace, so any event count that
    ignores those two kinds is preserved. -/
theorem get_avro_schema_countEv (env : Env) (st : St) (sid : String)
    (p : TraceEvent → Bool)
    (hp1 : p (.resolveById sid) = false) (hp2 : p (.remoteById sid) = false) :
    countEv p ((get_avro_schema env st sid).2).trace = countEv p st.trace := by
  simp only [get_avro_schema]
  split
  · simp [St.log, countEv, List.filter_cons, hp1]
  · split
    · split
      · simp [St.log, countEv, List.filter_cons, hp1, hp2]
      · simp [St.log, countEv, List.filter_cons, hp1, hp2]
    · simp [St.log, countEv, List.filter_cons, hp1]

/-- C5 (amended): for every byte sequence with a valid envelope whose
    payload step succeeds with payload `p` (`p` is the bytes after the
    18-byte envelope, zlib-decompressed when the compression byte is 0x05)
    and whose schema cannot be resolved (the resolver returns None),
    `deserialize_message` returns the fallback dict with exactly the
    base64 of `p` under raw_bytes and the stringified UUID under
    schema_version_id; the resulting state shows no Avro-decode and no
    further JSON-strategy attempt. -/
theorem C5_unresolved_schema_fallback (env : Env) (st st1 : St)
    (raw_bytes : List Nat) (topic : String) (p : List Nat)
    (hlen : 18 < raw_bytes.length) (hb : raw_bytes.getD 0 0 = 3)
    (hp : envelopePayload env (raw_bytes.getD 1 0) (raw_bytes.drop 18) = .ok p)
    (hres : get_avro_schema env st (uuidStr ((raw_bytes.drop 2).take 16)) =
      (Option.none, st1)) :
    deserialize_message env st raw_bytes topic =
      (.ok (.pydict [("raw_bytes", .pystr (b64encode p)),
                     ("schema_version_id",
                      .pystr (uuidStr ((raw_bytes.drop 2).take 16)))]), st1) ∧
    countEv isAvroDecode st1.trace = countEv isAvroDecode st.trace ∧
    countEv isJsonAttempt st1.trace = countEv isJsonAttempt st.trace := by
  have hcond : 18 < raw_bytes.length ∧ raw_bytes.getD 0 0 = 3 := ⟨hlen, hb⟩
  refine ⟨?_, ?_, ?_⟩
  · simp only [deserialize_message, if_pos hcond, envelopeTry, hp, envelopeAfterPayload, hres]
  · have h := get_avro_schema_countEv env st (uuidStr ((raw_bytes.drop 2).take 16))
      isAvroDecode rfl rfl
    rw [hres] at h
    exact h
  · have h := get_avro_schema_countEv env st (uuidStr ((raw_bytes.drop 2).take 16))
      isJsonAttempt rfl rfl
    rw [hres] at h
    exact h

theorem C5_unresolved_schema_fallback_witness :
    18 < bPlainEnvelope.length ∧
    envelopePayload envDefault (bPlainEnvelope.getD 1 0) (bPlainEnvelope.drop 18) =
      .ok (bPlainEnvelope.drop 18) ∧
    (deserialize_message envDefault st0 bPlainEnvelope "t" =
      (.ok (.pydict [("raw_bytes", .pystr (b64encode (bPlainEnvelope.drop 18))),
                     ("schema_version_id",
                      .pystr (uuidStr ((bPlainEnvelope.drop 2).take 16)))]),
       ⟨[], [.remoteById (uuidStr ((bPlainEnvelope.drop 2).take 16)),
             .resolveById (uuidStr ((bPlainEnvelope.drop 2).take 16))]⟩) ∧
    countEv isAvroDecode [TraceEvent.remoteById (uuidStr ((bPlainEnvelope.drop 2).take 16)),
      TraceEvent.resolveById (uuidStr ((bPlainEnvelope.drop 2).take 16))] =
      countEv isAvroDecode st0.trace ∧
    countEv isJsonAttempt [TraceEvent.remoteById (uuidStr ((bPlainEnvelope.drop 2).take 16)),
      TraceEvent.resolveById (uuidStr ((bPlainEnvelope.drop 2).take 16))] =
      countEv isJsonAttempt st0.trace) :=
  ⟨by decide, rfl,
   C5_unresolved_schema_fallback envDefault st0
     ⟨[], [.remoteById (uuidStr ((bPlainEnvelope.drop 2).take 16)),
           .resolveById (uuidStr ((bPlainEnvelope.drop 2).take 16))]⟩
     bPlainEnvelope "t" (bPlainEnvelope.drop 18) (by decide) (by decide) rfl rfl⟩

/-- C5 counterexample: with compression byte 0x05 and a genuinely
    zlib-compressed payload (`zlib.compress(b"A")`), when the schema is not
    resolved the returned raw_bytes field holds the base64 of the
    DECOMPRESSED payload ("QQ==" = base64 of b"A"), which differs from the
    base64 of the payload after the 18-byte envelope, contrary to the
    claim's "base64 of the payload after the 18-byte envelope". -/
theorem C5_claim_false_on_compressed_payload :
    18 < bCompressed.length ∧ bCompressed.getD 0 0 = 3 ∧
    (deserialize_message envZlib st0 bCompressed "t").1 =
      .ok (.pydict [("raw_bytes", .pystr "QQ=="),
                    ("schema_version_id",
                     .pystr "00000000-0000-0000-0000-000000000000")]) ∧
    "QQ==" ≠ b64encode (bCompressed.drop 18) :=
  ⟨by decide, by decide, rfl, by decide⟩

/-- C6: resolving a schema version id twice in succession issues exactly
    one remote registry call: on a cache miss with a successful remote
    fetch and parse, the first call performs one remote lookup and stores
    the parsed schema in the cache, and the second call is a cache hit
    returning the same parsed schema with zero additional remote calls. -/
theorem C6_second_resolution_is_cache_hit (env : Env) (st : St) (sid : String)
    (ps : PyVal)
    (hmiss : lookupStr sid st.cache = Option.none)
    (hglue : env.glueAvailable = true)
    (hfetch : fetchParse env (env.getSchemaVersionById sid) = some ps) :
    ∃ st1 st2,
      get_avro_schema env st sid = (some ps, st1) ∧
      lookupStr sid st1.cache = some ps ∧
      countEv isRemoteEvent st1.trace = countEv isRemoteEvent st.trace + 1 ∧
      get_avro_schema env st1 sid = (some ps, st2) ∧
      countEv isRemoteEvent st2.trace = countEv isRemoteEvent st1.trace := by
  refine ⟨⟨(sid, ps) :: st.cache, .remoteById sid :: .resolveById sid :: st.trace⟩,
          ⟨(sid, ps) :: st.cache,
           .resolveById sid :: .remoteById sid :: .resolveById sid :: st.trace⟩,
          ?_, ?_, ?_, ?_, ?_⟩
  · simp [get_avro_schema, St.log, hmiss, hglue, hfetch]
  · simp [lookupStr]
  · simp [countEv, List.filter_cons, isRemoteEvent]
  · simp [get_avro_schema, St.log, lookupStr]
  · simp [countEv, List.filter_cons, isRemoteEvent]

theorem C6_second_resolution_is_cache_hit_witness :
    lookupStr "sid" st0.cache = Option.none ∧
    fetchParse envOkById (envOkById.getSchemaVersionById "sid") = some (.pyint 42) ∧
    (∃ st1 st2,
      get_avro_schema envOkById st0 "sid" = (some (.pyint 42), st1) ∧
      lookupStr "sid" st1.cache = some (.pyint 42) ∧
      countEv isRemoteEvent st1.trace = countEv isRemoteEvent st0.trace + 1 ∧
      get_avro_schema envOkById st1 "sid" = (some (.pyint 42), st2) ∧
      countEv isRemoteEvent st2.trace = countEv isRemoteEvent st1.trace) :=
  ⟨rfl, rfl,
   C6_second_resolution_is_cache_hit envOkById st0 "sid" (.pyint 42) rfl rfl rfl⟩

/-- C7: on a cache miss where the remote fetch or schema parsing fails,
    both resolvers return None without raising (they are total functions
    of this embedding), leave the schema cache unchanged, and log exactly
    one remote call; in particular the failure is not cached, so an
    immediately repeated id-resolution performs another remote call. -/
theorem C7_failed_resolution_not_cached (env : Env) (st : St) (sid sname : String)
    (hglue : env.glueAvailable = true)
    (hreg : env.glueRegistryName.isSome = true)
    (hmiss1 : lookupStr sid st.cache = Option.none)
    (hmiss2 : lookupStr ("name:" ++ sname) st.cache = Option.none)
    (hfail1 : fetchParse env (env.getSchemaVersionById sid) = Option.none)
    (hfail2 : fetchParse env (env.getSchemaVersionByName sname) = Option.none) :
    get_avro_schema env st sid =
      (Option.none, ⟨st.cache, .remoteById sid :: .resolveById sid :: st.trace⟩) ∧
    get_schema_by_name env st sname =
      (Option.none, ⟨st.cache, .remoteByName sname :: .resolveByName sname :: st.trace⟩) ∧
    get_avro_schema env ⟨st.cache, .remoteById sid :: .resolveById sid :: st.trace⟩ sid =
      (Option.none, ⟨st.cache, .remoteById sid :: .resolveById sid ::
        .remoteById sid :: .resolveById sid :: st.trace⟩) ∧
    countEv isRemoteEvent (TraceEvent.remoteById sid :: .resolveById sid :: st.trace) =
      countEv isRemoteEvent st.trace + 1 := by
  refine ⟨?_, ?_, ?_, ?_⟩
  · simp [get_avro_schema, St.log, hmiss1, hglue, hfail1]
  · simp [get_schema_by_name, St.log, hmiss2, hglue, hreg, hfail2]
  · simp [get_avro_schema, St.log, hmiss1, hglue, hfail1]
  · simp [countEv, List.filter_cons, isRemoteEvent]

theorem C7_failed_resolution_not_cached_witness :
    fetchParse envDefault (envDefault.getSchemaVersionById "sid1") = Option.none ∧
    (get_avro_schema envDefault st0 "sid1" =
      (Option.none, ⟨st0.cache, .remoteById "sid1" :: .resolveById "sid1" :: st0.trace⟩) ∧
    get_schema_by_name envDefault st0 "sname1" =
      (Option.none,
       ⟨st0.cache, .remoteByName "sname1" :: .resolveByName "sname1" :: st0.trace⟩) ∧
    get_avro_schema envDefault
        ⟨st0.cache, .remoteById "sid1" :: .resolveById "sid1" :: st0.trace⟩ "sid1" =
      (Option.none, ⟨st0.cache, .remoteById "sid1" :: .resolveById "sid1" ::
        .remoteById "sid1" :: .resolveById "sid1" :: st0.trace⟩) ∧
    countEv isRemoteEvent (TraceEvent.remoteById "sid1" :: .resolveById "sid1" :: st0.trace) =
      countEv isRemoteEvent st0.trace + 1) :=
  ⟨rfl,
   C7_failed_resolution_not_cached envDefault st0 "sid1" "sname1" rfl rfl rfl rfl rfl rfl⟩

/-- Helper: the value returned by `decode_avro_payload` is either a
    successful reader output or a fallback dict carrying raw_bytes. -/
theorem decode_avro_payload_shape (env : Env) (st : St) (bs : List Nat) (sch : PyVal) :
    (∃ p s2, env.schemalessReader p s2 = .ok (decode_avro_payload env st bs sch).1) ∨
    ((decode_avro_payload env st bs sch).1.isDict = true ∧
     (decode_avro_payload env st bs sch).1.hasKeyB "raw_bytes" = true) := by
  simp only [decode_avro_payload]
  split
  · split
    next record heq => exact Or.inl ⟨bs, sch, by rw [heq]⟩
    next e heq => exact Or.inr ⟨rfl, rfl⟩
  · exact Or.inr ⟨rfl, rfl⟩

/-- Helper: the value produced after a successful envelope-payload step is
    a decode outcome. -/
theorem envelopeAfterPayload_shape (env : Env) (st : St) (sid : String) (bs : List Nat) :
    decodeOutcome env (envelopeAfterPayload env st sid bs).1 := by
  simp only [envelopeAfterPayload]
  split
  next schema st1 heq =>
    rcases decode_avro_payload_shape env st1 bs schema with h | h
    · exact Or.inr (Or.inl h)
    · exact Or.inr (Or.inr h)
  next st1 heq => exact Or.inr (Or.inr ⟨rfl, rfl⟩)

/-- Helper: a normal (non-exception) result of the envelope try block is a
    decode outcome. -/
theorem envelopeTry_ok_shape (env : Env) (st : St) (b : List Nat) (v : PyVal) (st2 : St)
    (h : envelopeTry env st b = (.ok v, st2)) : decodeOutcome env v := by
  simp only [envelopeTry] at h
  split at h
  · simp at h
  next p heq =>
    have hv : (envelopeAfterPayload env st (uuidStr ((b.drop 2).take 16)) p).1 = v := by
      have h1 := congrArg Prod.fst h
      simpa using h1
    rw [← hv]
    exact envelopeAfterPayload_shape env st _ p

/-- Helper: a successful JSON strategy value comes from `json.loads`. -/
theorem jsonStrategyResult_some (env : Env) (b : List Nat) (v : PyVal)
    (h : jsonStrategyResult env b = some v) : ∃ s, env.jsonLoads s = some v := by
  simp only [jsonStrategyResult] at h
  split at h
  · exact absurd h (by simp)
  next s heq => exact ⟨s, h⟩

/-- Helper: a value accepted by the topic-convention strategy is a decode
    outcome. -/
theorem topicStrategy_ok_shape (env : Env) (st : St) (b : List Nat) (topic : String)
    (v : PyVal) (st2 : St)
    (h : topicStrategy env st b topic = (.ok (some v), st2)) : decodeOutcome env v := by
  simp only [topicStrategy] at h
  split at h
  · simp at h
  next schema_name heq =>
    split at h
    · split at h
      next st1 heq2 => simp at h
      next schema st1 heq2 =>
        split at h
        next kvs heq3 =>
          split at h
          · simp at h
          · have hv : PyVal.pydict kvs = v := by
              have h1 := congrArg Prod.fst h
              simpa using h1
            rw [← hv, ← heq3]
            rcases decode_avro_payload_shape env st1 b schema with h2 | h2
            · exact Or.inr (Or.inl h2)
            · exact Or.inr (Or.inr h2)
        next heq3 => simp at h
    · simp at h

/-- Helper: a normal result of the strategies-2-to-4 chain is a decode
    outcome. -/
theorem noEnvelopePath_ok_shape (env : Env) (st : St) (b : List Nat) (topic : String)
    (v : PyVal) (st2 : St)
    (h : noEnvelopePath env st b topic = (.ok v, st2)) : decodeOutcome env v := by
  simp only [noEnvelopePath] at h
  split at h
  next v1 heq =>
    have hv : v1 = v := by
      have h1 := congrArg Prod.fst h
      simpa using h1
    exact Or.inl (hv ▸ jsonStrategyResult_some env b v1 heq)
  next heq =>
    split at h
    next v1 st3 heq2 =>
      have hv : v1 = v := by
        have h1 := congrArg Prod.fst h
        simpa using h1
      exact hv ▸ topicStrategy_ok_shape env (st.log .jsonAttempt) b topic v1 st3 heq2
    next st3 heq2 =>
      have hv : PyVal.pydict [("raw_bytes", .pystr (b64encode b))] = v := by
        have h1 := congrArg Prod.fst h
        simpa using h1
      rw [← hv]
      exact Or.inr (Or.inr ⟨rfl, rfl⟩)
    next e st3 heq2 => simp at h

/-- C1 (amended): every value `deserialize_message` returns normally is
    either the value of a successful `json.loads` (which may be a
    non-mapping or Python None), a successful Avro decode (which may be a
    non-mapping for non-record schemas), or a fallback mapping containing
    a raw_bytes key; the original claim's "never absent/null and never a
    non-mapping value" does not hold (see the counterexample). -/
theorem C1_amended_decoded_record_shape (env : Env) (st : St) (raw_bytes : List Nat)
    (topic : String) (v : PyVal) (st2 : St)
    (h : deserialize_message env st raw_bytes topic = (.ok v, st2)) :
    decodeOutcome env v := by
  simp only [deserialize_message] at h
  split at h
  · split at h
    next v1 st1 heq =>
      have hv : v1 = v := by
        have h1 := congrArg Prod.fst h
        simpa using h1
      exact hv ▸ envelopeTry_ok_shape env st raw_bytes v1 st1 heq
    next e st1 heq =>
      have hv : PyVal.pydict [("raw_bytes", .pystr (b64encode raw_bytes)),
          ("error", .pystr e)] = v := by
        have h1 := congrArg Prod.fst h
        simpa using h1
      rw [← hv]
      exact Or.inr (Or.inr ⟨rfl, rfl⟩)
  · exact noEnvelopePath_ok_shape env st raw_bytes topic v st2 h

theorem C1_amended_decoded_record_shape_witness :
    decodeOutcome envDefault (.pydict [("raw_bytes", .pystr "AA==")]) :=
  C1_amended_decoded_record_shape envDefault st0 [0] "t"
    (.pydict [("raw_bytes", .pystr "AA==")]) ⟨[], [.jsonAttempt]⟩ rfl

/-- C1 counterexample: on the four bytes of `b"null"` (valid UTF-8 JSON),
    `deserialize_message` returns Python None — an absent/null, non-mapping
    Decoded Record — refuting "it is never absent/null and never a
    non-mapping value". -/
theorem C1_claim_false_on_json_null :
    (deserialize_message envJsonNull st0 [110, 117, 108, 108] "taxi-trips").1 =
      .ok PyVal.nil ∧
    PyVal.nil.isDict = false ∧ PyVal.nil.hasKeyB "raw_bytes" = false :=
  ⟨rfl, rfl, rfl⟩

/-- C2 (code bug): `deserialize_message` CAN raise an exception to its
    caller, contradicting the never-throws contract: when the
    topic-convention strategy resolves a non-record Avro schema (here the
    primitive schema `"string"`) and `fastavro.schemaless_reader` succeeds
    with a non-dict value, the logging line
    `decoded.get('decode_error', 'unknown error')` (index.py line 197)
    raises AttributeError, and nothing in `deserialize_message` catches
    it.  The guard `isinstance(decoded, dict)` two lines above shows the
    non-dict case was considered, so the crash in the log line is a slip,
    not intent.  Input: undecodable byte 0xff on mapped topic
    "taxi-trips". -/
theorem C2_attribute_error_escapes :
    (deserialize_message envStrSchema st0 [255] "taxi-trips").1 =
      .error "AttributeError: object has no attribute get" := rfl
